import Mathlib

/-!
# ASUS fan driver (`asus_fan.c`): fan-control state machine

A shallow embedding of the controller part of `src/asus_fan.c`:

* the module globals `fan_states`, `fan_manual_mode`, `has_gfx_fan`,
  `max_fan_speed_setting` and `used` become the fields of `Driver`;
* every `acpi_evaluate_integer` call is appended to `Driver.calls` (oldest
  first) and answered by a `Firmware` oracle that sees the calls issued so far;
* C integers are `Nat`/`Int` with explicit wrap-around.  The target is LP64
  (`unsigned long` and `unsigned long long` are 64 bits, `int` and
  `acpi_status` are 32 bits); narrowing conversions are modular;
* the fan index is `Fin 2`: the two arrays have two elements and every caller
  in the source passes the literal `0` or `1`;
* an out-parameter `unsigned long *state` is returned as `Option Nat`
  (`none` when the function does not store through the pointer).

The scratch global `params` only carries the argument vector into
`acpi_evaluate_integer`; the argument vector is recorded in the call log.
-/

namespace AsusFan

/-! ## Machine integers -/

/-- Conversion of an unsigned value to `int` (keep the low 32 bits, read as a signed number). -/
def as_int (n : Nat) : Int :=
  if n % 2 ^ 32 < 2 ^ 31 then ((n % 2 ^ 32 : Nat) : Int) else ((n % 2 ^ 32 : Nat) : Int) - 2 ^ 32

/-- Conversion of an `int` to a 64-bit unsigned value (sign extension). -/
def as_u64 (i : Int) : Nat := (i % 2 ^ 64).toNat

/-- Conversion of an `int` to a 32-bit unsigned value (`acpi_status`). -/
def as_u32 (i : Int) : Nat := (i % 2 ^ 32).toNat

/-- The ACPI success status. -/
def AE_OK : Nat := 0

/-- The errno values used by the module. -/
def ENODEV : Int := 19

/-- Errno for a driver that is already registered. -/
def EBUSY : Int := 16

/-! ## Firmware interface -/

/-- The five ACPI control methods the driver evaluates. -/
inductive AcpiMethod where
  /-- Path `\_TZ.RFAN`: read the fan speed. -/
  | RFAN
  /-- Path `\_SB.PCI0.LPCB.EC0.SFNV`: set the fan speed, or automatic mode. -/
  | SFNV
  /-- Path `\_SB.PCI0.LPCB.EC0.TACH`: read the tachometer. -/
  | TACH
  /-- Path `\_SB.ATKD.QMOD`: quiet mode, used to reset the ceiling. -/
  | QMOD
  /-- Path `\_SB.PCI0.LPCB.EC0.ST98`: set the maximum fan speed. -/
  | ST98
  deriving DecidableEq, Repr

/-- One `acpi_evaluate_integer` invocation: the method and its integer arguments. -/
structure AcpiCall where
  pathname : AcpiMethod
  args : List Nat
  deriving DecidableEq, Repr

/-- What the firmware answers: a status and the integer it stores into `value`. -/
structure AcpiReply where
  status : Nat
  value : Nat
  deriving DecidableEq, Repr

/-- The firmware: its answer to a call may depend on all calls issued before. -/
abbrev Firmware := List AcpiCall → AcpiCall → AcpiReply

/-! ## Module state -/

/-- A two-element C array. -/
structure Arr2 (α : Type) where
  e0 : α
  e1 : α
  deriving DecidableEq, Repr

/-- Array read `a[i]`. -/
def Arr2.get {α : Type} (a : Arr2 α) (i : Fin 2) : α :=
  if i = 0 then a.e0 else a.e1

/-- Array write `a[i] = v`. -/
def Arr2.set {α : Type} (a : Arr2 α) (i : Fin 2) (v : α) : Arr2 α :=
  if i = 0 then { a with e0 := v } else { a with e1 := v }

/-- The module globals, together with the log of firmware calls issued so far. -/
structure Driver where
  fan_states : Arr2 Int
  fan_manual_mode : Arr2 Bool
  has_gfx_fan : Bool
  max_fan_speed_setting : Int
  used : Bool
  calls : List AcpiCall
  deriving DecidableEq, Repr

/-- The static initialisers of the globals (`has_gfx_fan` is set by `fan_init`). -/
def Driver.initial (gfx : Bool) : Driver :=
  { fan_states := ⟨-1, -1⟩
    fan_manual_mode := ⟨false, false⟩
    has_gfx_fan := gfx
    max_fan_speed_setting := 255
    used := false
    calls := [] }

/-- The constant `max_fan_speed_default`. -/
def max_fan_speed_default : Int := 255

/-- The constant `fan_minimum`. -/
def fan_minimum : Int := 10

/-- The constant `fan_minimum_gfx`. -/
def fan_minimum_gfx : Int := 10

/-- Evaluate an ACPI method: log the call, return `(status, value)` as the
32-bit status and the 64-bit integer the firmware produced. -/
def acpi_evaluate_integer (fw : Firmware) (d : Driver) (pathname : AcpiMethod)
    (args : List Nat) : Nat × Nat × Driver :=
  let c : AcpiCall := ⟨pathname, args⟩
  let r := fw d.calls c
  (r.status % 2 ^ 32, r.value % 2 ^ 64, { d with calls := d.calls ++ [c] })

/-! ## Controller functions -/

/-- Source `__fan_get_cur_state(fan, &state)`: result is `(return value, *state, globals)`. -/
def __fan_get_cur_state (fw : Firmware) (d : Driver) (fan : Fin 2) :
    Int × Option Nat × Driver :=
  if d.fan_manual_mode.get fan then
    (0, some (as_u64 (d.fan_states.get fan)), d)
  else
    match acpi_evaluate_integer fw d .RFAN [as_u64 fan.val] with
    | (ret, value, d1) =>
      if ret ≠ AE_OK then
        (as_int ret, none, d1)
      else
        let value := (value + 1) % 2 ^ 64
        let value := (value * 4) % 2 ^ 64
        (0, some value, d1)

/-- Source `fan_set_auto()`. -/
def fan_set_auto (fw : Firmware) (d : Driver) : Int × Driver :=
  let d := { d with fan_manual_mode := d.fan_manual_mode.set 0 false }
  let d := { d with fan_states := d.fan_states.set 0 (-1) }
  let d :=
    if d.has_gfx_fan then
      let d := { d with fan_states := d.fan_states.set 1 (-1) }
      { d with fan_manual_mode := d.fan_manual_mode.set 1 false }
    else d
  match acpi_evaluate_integer fw d .SFNV [0, 0] with
  | (ret, _, d1) =>
    if ret ≠ AE_OK then (as_int ret, d1) else (as_int ret, d1)

/-- Source `fan_set_speed(fan, speed)`. -/
def fan_set_speed (fw : Firmware) (d : Driver) (fan : Fin 2) (speed : Int) : Int × Driver :=
  match acpi_evaluate_integer fw d .SFNV [as_u64 ((fan.val : Int) + 1), as_u64 speed] with
  | (ret, _, d1) => (as_int ret, d1)

/-- Source `__fan_set_cur_state(fan, state)`. -/
def __fan_set_cur_state (fw : Firmware) (d : Driver) (fan : Fin 2) (state : Nat) :
    Int × Driver :=
  let d := { d with fan_states := d.fan_states.set fan (as_int state) }
  if state = 256 then
    let d := { d with fan_manual_mode := d.fan_manual_mode.set fan false }
    let d := { d with fan_states := d.fan_states.set fan (-1) }
    fan_set_auto fw d
  else
    let d := { d with fan_manual_mode := d.fan_manual_mode.set fan true }
    fan_set_speed fw d fan (as_int state)

/-- Source `__fan_rpm(fan)`. -/
def __fan_rpm (fw : Firmware) (d : Driver) (fan : Fin 2) : Nat × Driver :=
  match acpi_evaluate_integer fw d .TACH [as_u64 fan.val] with
  | (ret, value, d1) => if ret ≠ AE_OK then (0, d1) else (value, d1)

/-- Source `fan_get_max_speed(&state)`. -/
def fan_get_max_speed (d : Driver) : Int × Option Nat × Driver :=
  (0, some (as_u64 d.max_fan_speed_setting), d)

/-- Source `fan_set_max_speed(state, reset)`. -/
def fan_set_max_speed (fw : Firmware) (d : Driver) (state : Nat) (reset : Bool) :
    Int × Driver :=
  if reset then
    let state := 255
    let arg_qmod : Int := 2
    match acpi_evaluate_integer fw d .QMOD [as_u64 arg_qmod] with
    | (ret, _, d1) =>
      if ret ≠ AE_OK then (as_int ret, d1)
      else (as_int ret, { d1 with max_fan_speed_setting := as_int state })
  else
    match acpi_evaluate_integer fw d .ST98 [state] with
    | (ret, _, d1) =>
      if ret ≠ AE_OK then (as_int ret, d1)
      else (as_int ret, { d1 with max_fan_speed_setting := as_int state })

/-! ## sysfs handlers and attribute registration -/

/-- Source `fan_get_cur_state`: the number printed into `buf` (the local `state`
starts at `0` and the return value of `__fan_get_cur_state` is dropped). -/
def fan_get_cur_state (fw : Firmware) (d : Driver) : Nat × Driver :=
  match __fan_get_cur_state fw d 0 with
  | (_, state, d1) => (state.getD 0, d1)

/-- Source `fan_get_cur_state_gfx`. -/
def fan_get_cur_state_gfx (fw : Firmware) (d : Driver) : Nat × Driver :=
  match __fan_get_cur_state fw d 1 with
  | (_, state, d1) => (state.getD 0, d1)

/-- Source `fan_set_cur_state`; `state` is the content of the local `int state`
after `kstrtouint(buf, 10, &state)`, converted to `unsigned long` at the call. -/
def fan_set_cur_state (fw : Firmware) (d : Driver) (state : Int) : Driver :=
  (__fan_set_cur_state fw d 0 (as_u64 state)).2

/-- Source `fan_set_cur_state_gfx`. -/
def fan_set_cur_state_gfx (fw : Firmware) (d : Driver) (state : Int) : Driver :=
  (__fan_set_cur_state fw d 1 (as_u64 state)).2

/-- Source `fan_rpm`: the number printed. -/
def fan_rpm (fw : Firmware) (d : Driver) : Nat × Driver := __fan_rpm fw d 0

/-- Source `fan_rpm_gfx`: the number printed. -/
def fan_rpm_gfx (fw : Firmware) (d : Driver) : Nat × Driver := __fan_rpm fw d 1

/-- The device attributes declared with `DEVICE_ATTR`. -/
inductive DevAttr where
  | pwm1 | fan1_min | fan1_input | fan1_label
  | pwm2 | fan2_min | fan2_input | fan2_label
  deriving DecidableEq, Repr

/-- The fan whose handlers a device attribute is bound to. -/
def DevAttr.fan : DevAttr → Fin 2
  | .pwm1 | .fan1_min | .fan1_input | .fan1_label => 0
  | .pwm2 | .fan2_min | .fan2_input | .fan2_label => 1

/-- Source `hwmon_attributes`. -/
def hwmon_attributes : List DevAttr :=
  [.pwm1, .fan1_min, .fan1_input, .fan1_label]

/-- Source `hwmon_gfx_attributes`. -/
def hwmon_gfx_attributes : List DevAttr :=
  [.pwm1, .fan1_min, .fan1_input, .fan1_label, .pwm2, .fan2_min, .fan2_input, .fan2_label]

/-- Source `asus_fan_hwmon_init`: the attribute group handed to
`hwmon_device_register_with_groups`. -/
def asus_fan_hwmon_init (d : Driver) : List DevAttr :=
  if !d.has_gfx_fan then hwmon_attributes else hwmon_gfx_attributes

/-! ## Module load and unload -/

/-- Source `asus_fan_register_driver`; `bundle` is `some e` when
`platform_create_bundle` returns an error pointer with `PTR_ERR` equal to `e`. -/
def asus_fan_register_driver (d : Driver) (bundle : Option Int) : Int × Driver :=
  if d.used then (-EBUSY, d)
  else
    match bundle with
    | some e => (e, d)
    | none => (0, { d with used := true })

/-- Source `asus_fan_unregister_driver`. -/
def asus_fan_unregister_driver (d : Driver) : Driver :=
  { d with used := false }

/-- Source `fan_init`; `sys_vendor` and `product_name` are the two strings
`dmi_get_system_info` returns.  The platform test yields `none` on the two
`return -ENODEV` paths and otherwise the value assigned to `has_gfx_fan`. -/
def fan_init (fw : Firmware) (d : Driver) (sys_vendor product_name : String)
    (bundle : Option Int) : Int × Driver :=
  let name := product_name
  let platform : Option Bool :=
    if sys_vendor = "ASUSTeK COMPUTER INC." then
      if name = "UX31E" ∨ name = "UX21" ∨ name = "UX301LA" ∨ name = "UX21A" ∨
          name = "UX31A" ∨ name = "UX32A" ∨ name = "UX42VS" ∨ name = "UX302LA" ∨
          name = "N551JK" ∨ name = "N56JN" then some false
      else if name = "UX32VD" ∨ name = "UX52VS" ∨ name = "UX500VZ" ∨ name = "NX500" then
        some true
      else none
    else none
  match platform with
  | none => (-ENODEV, d)
  | some gfx =>
    let d := { d with has_gfx_fan := gfx }
    match asus_fan_register_driver d bundle with
    | (r, d1) =>
      let ret := as_u32 r
      if ret ≠ AE_OK then (as_int ret, d1)
      else
        match fan_set_max_speed fw d1 (as_u64 max_fan_speed_default) false with
        | (r, d2) =>
          let ret := as_u32 r
          if ret ≠ AE_OK then (as_int ret, d2)
          else
            match fan_set_auto fw d2 with
            | (r, d3) =>
              let ret := as_u32 r
              if ret ≠ AE_OK then (as_int ret, d3) else (0, d3)

/-- Source `fan_exit`. -/
def fan_exit (fw : Firmware) (d : Driver) : Driver :=
  match fan_set_auto fw d with
  | (_, d1) =>
    let d2 := asus_fan_unregister_driver d1
    { d2 with used := false }

/-! ## Request sequences -/

/-- The controller operations a caller can invoke. -/
inductive Request where
  | set_cur_state (fan : Fin 2) (state : Nat)
  | get_cur_state (fan : Fin 2)
  | set_auto
  | set_max_speed (state : Nat) (reset : Bool)
  | get_max_speed
  | rpm (fan : Fin 2)
  deriving DecidableEq, Repr

/-- Serve one request. -/
def serve (fw : Firmware) (d : Driver) : Request → Driver
  | .set_cur_state fan state => (__fan_set_cur_state fw d fan state).2
  | .get_cur_state fan => (__fan_get_cur_state fw d fan).2.2
  | .set_auto => (fan_set_auto fw d).2
  | .set_max_speed state reset => (fan_set_max_speed fw d state reset).2
  | .get_max_speed => (fan_get_max_speed d).2.2
  | .rpm fan => (__fan_rpm fw d fan).2

/-- Serve a sequence of requests, first to last. -/
def serve_all (fw : Firmware) (d : Driver) (reqs : List Request) : Driver :=
  reqs.foldl (serve fw) d

/-- The speed carried by the most recent `SFNV` call whose fan argument is
`fan + 1`, if there was one. -/
def last_speed_write (calls : List AcpiCall) (fan : Fin 2) : Option Nat :=
  calls.foldl
    (fun acc c =>
      match c with
      | ⟨.SFNV, [i, speed]⟩ => if i = fan.val + 1 then some speed else acc
      | _ => acc)
    none

/-- A firmware that answers every call with the same status and value. -/
def fw_const (status value : Nat) : Firmware := fun _ _ => ⟨status, value⟩

/-- A fan is recorded as automatic, or as manual at a speed in `0..=255`. -/
def speed_domain (d : Driver) (fan : Fin 2) : Prop :=
  d.fan_manual_mode.get fan = true → 0 ≤ d.fan_states.get fan ∧ d.fan_states.get fan ≤ 255

/-- The firmware call `fan_set_max_speed(state, reset)` issues. -/
def max_speed_call (state : Nat) (reset : Bool) : AcpiCall :=
  if reset then ⟨.QMOD, [2]⟩ else ⟨.ST98, [state]⟩

/-- The firmware call `__fan_set_cur_state(fan, state)` issues. -/
def set_state_call (fan : Fin 2) (state : Nat) : AcpiCall :=
  if state = 256 then ⟨.SFNV, [0, 0]⟩ else ⟨.SFNV, [fan.val + 1, as_u64 (as_int state)]⟩

/-- The 32-bit status the firmware gives to `call` when it is issued in state `d`. -/
def status_of (fw : Firmware) (d : Driver) (call : AcpiCall) : Nat :=
  (acpi_evaluate_integer fw d call.pathname call.args).1

/-- The set-speed value of a request is the sentinel 256 or lies in `0..=255`
(requests other than set-speed carry no such value). -/
def Request.in_domain : Request → Prop
  | .set_cur_state _ state => state ≤ 256
  | _ => True

/-- The raw value the firmware gives to an `RFAN` read of `fan` issued in state `d`. -/
def raw_reading (fw : Firmware) (d : Driver) (fan : Fin 2) : Nat :=
  (acpi_evaluate_integer fw d .RFAN [fan.val]).2.1

/-- Cache consistency for one fan: if it is recorded as manual, the most recent
`SFNV` write addressed to it carried the cached value (as the 64-bit ACPI
integer the `int` converts to). -/
def cache_consistent (d : Driver) (fan : Fin 2) : Prop :=
  d.fan_manual_mode.get fan = true →
    last_speed_write d.calls fan = some (as_u64 (d.fan_states.get fan))

/-- The cached state of a fan is a value of the C type `int`. -/
def state_is_int (d : Driver) (fan : Fin 2) : Prop :=
  -2 ^ 31 ≤ d.fan_states.get fan ∧ d.fan_states.get fan < 2 ^ 31

/-- The request is not a call of `fan_set_max_speed` (no sysfs handler calls it). -/
def Request.keeps_ceiling : Request → Prop
  | .set_max_speed _ _ => False
  | _ => True

instance speed_domain_decidable (d : Driver) (fan : Fin 2) : Decidable (speed_domain d fan) := by
  unfold speed_domain
  infer_instance

instance cache_consistent_decidable (d : Driver) (fan : Fin 2) :
    Decidable (cache_consistent d fan) := by
  unfold cache_consistent
  infer_instance

instance state_is_int_decidable (d : Driver) (fan : Fin 2) : Decidable (state_is_int d fan) := by
  unfold state_is_int
  infer_instance

instance in_domain_decidable (r : Request) : Decidable r.in_domain := by
  cases r <;> unfold Request.in_domain <;> infer_instance

instance keeps_ceiling_decidable (r : Request) : Decidable r.keeps_ceiling := by
  cases r <;> unfold Request.keeps_ceiling <;> infer_instance

/-! ## Basic facts -/

theorem Arr2.get_set_same {α : Type} (a : Arr2 α) (i : Fin 2) (v : α) :
    (a.set i v).get i = v := by
  unfold Arr2.get Arr2.set
  split <;> simp_all

theorem Arr2.get_set_other {α : Type} (a : Arr2 α) (i j : Fin 2) (v : α) (h : j ≠ i) :
    (a.set i v).get j = a.get j := by
  fin_cases i <;> fin_cases j <;> simp_all [Arr2.get, Arr2.set]

theorem as_u64_as_int_small (n : Nat) (h : n < 2 ^ 31) : as_u64 (as_int n) = n := by
  unfold as_u64 as_int
  have h1 : n % 2 ^ 32 = n := Nat.mod_eq_of_lt (by omega)
  rw [h1, if_pos h]
  have h2 : ((n : Int) % 2 ^ 64) = (n : Int) := Int.emod_eq_of_lt (by omega) (by omega)
  rw [h2]
  simp

theorem as_int_small (n : Nat) (h : n < 2 ^ 31) : as_int n = n := by
  unfold as_int
  have h1 : n % 2 ^ 32 = n := Nat.mod_eq_of_lt (by omega)
  rw [h1, if_pos h]

theorem as_int_eq_zero_iff (n : Nat) (h : n < 2 ^ 32) : as_int n = 0 ↔ n = 0 := by
  unfold as_int
  have h1 : n % 2 ^ 32 = n := Nat.mod_eq_of_lt h
  rw [h1]
  split <;> omega

theorem fan_arg_succ (fan : Fin 2) : as_u64 ((fan.val : Int) + 1) = fan.val + 1 := by
  unfold as_u64
  have : ((fan.val : Int) + 1) % 2 ^ 64 = (fan.val : Int) + 1 :=
    Int.emod_eq_of_lt (by omega) (by omega)
  rw [this]
  omega

theorem fan_arg (fan : Fin 2) : as_u64 (fan.val : Int) = fan.val := by
  unfold as_u64
  have : (fan.val : Int) % 2 ^ 64 = (fan.val : Int) :=
    Int.emod_eq_of_lt (by omega) (by omega)
  rw [this]
  omega

/-- What `__fan_set_cur_state` does for a request other than the sentinel 256. -/
theorem set_cur_state_manual (fw : Firmware) (d : Driver) (fan : Fin 2) (state : Nat)
    (h : state ≠ 256) :
    __fan_set_cur_state fw d fan state =
      (as_int ((fw d.calls ⟨.SFNV, [fan.val + 1, as_u64 (as_int state)]⟩).status % 2 ^ 32),
        { d with
          fan_states := d.fan_states.set fan (as_int state)
          fan_manual_mode := d.fan_manual_mode.set fan true
          calls := d.calls ++ [⟨.SFNV, [fan.val + 1, as_u64 (as_int state)]⟩] }) := by
  simp [__fan_set_cur_state, h, fan_set_speed, acpi_evaluate_integer, fan_arg_succ]

/-- What `fan_set_auto` does. -/
theorem set_auto_eq (fw : Firmware) (d : Driver) :
    fan_set_auto fw d =
      (as_int ((fw d.calls ⟨.SFNV, [0, 0]⟩).status % 2 ^ 32),
        { d with
          fan_states :=
            if d.has_gfx_fan then ((d.fan_states.set 0 (-1)).set 1 (-1))
            else d.fan_states.set 0 (-1)
          fan_manual_mode :=
            if d.has_gfx_fan then ((d.fan_manual_mode.set 0 false).set 1 false)
            else d.fan_manual_mode.set 0 false
          calls := d.calls ++ [⟨.SFNV, [0, 0]⟩] }) := by
  cases hg : d.has_gfx_fan <;> simp [fan_set_auto, acpi_evaluate_integer, hg]

/-- What `__fan_set_cur_state` does for the sentinel 256. -/
theorem set_cur_state_auto (fw : Firmware) (d : Driver) (fan : Fin 2) :
    __fan_set_cur_state fw d fan 256 =
      (as_int ((fw d.calls ⟨.SFNV, [0, 0]⟩).status % 2 ^ 32),
        { d with
          fan_states :=
            if d.has_gfx_fan then (((d.fan_states.set fan (-1)).set 0 (-1)).set 1 (-1))
            else (d.fan_states.set fan (-1)).set 0 (-1)
          fan_manual_mode :=
            if d.has_gfx_fan then (((d.fan_manual_mode.set fan false).set 0 false).set 1 false)
            else (d.fan_manual_mode.set fan false).set 0 false
          calls := d.calls ++ [⟨.SFNV, [0, 0]⟩] }) := by
  have hs : ∀ (a : Arr2 Int) (x y : Int), (a.set fan x).set fan y = a.set fan y := by
    intro a x y
    fin_cases fan <;> simp [Arr2.set]
  cases hg : d.has_gfx_fan <;> simp [__fan_set_cur_state, set_auto_eq, hg, hs]

/-- What `__fan_get_cur_state` does for a fan in manual mode. -/
theorem get_cur_state_manual (fw : Firmware) (d : Driver) (fan : Fin 2)
    (h : d.fan_manual_mode.get fan = true) :
    __fan_get_cur_state fw d fan = (0, some (as_u64 (d.fan_states.get fan)), d) := by
  simp [__fan_get_cur_state, h]

/-- What `__fan_get_cur_state` does for a fan in automatic mode. -/
theorem get_cur_state_automatic (fw : Firmware) (d : Driver) (fan : Fin 2)
    (h : d.fan_manual_mode.get fan = false) :
    __fan_get_cur_state fw d fan =
      if (fw d.calls ⟨.RFAN, [fan.val]⟩).status % 2 ^ 32 ≠ AE_OK then
        (as_int ((fw d.calls ⟨.RFAN, [fan.val]⟩).status % 2 ^ 32), none,
          { d with calls := d.calls ++ [⟨.RFAN, [fan.val]⟩] })
      else
        (0, some (((fw d.calls ⟨.RFAN, [fan.val]⟩).value % 2 ^ 64 + 1) * 4 % 2 ^ 64),
          { d with calls := d.calls ++ [⟨.RFAN, [fan.val]⟩] }) := by
  have hq : ∀ r : Nat, ((r % 2 ^ 64 + 1) % 2 ^ 64 * 4) % 2 ^ 64 = (r % 2 ^ 64 + 1) * 4 % 2 ^ 64 := by
    intro r
    omega
  by_cases hs : (fw d.calls ⟨.RFAN, [fan.val]⟩).status % 2 ^ 32 = AE_OK
  · simp only [__fan_get_cur_state, h, acpi_evaluate_integer, fan_arg, hs, hq, ne_eq,
      not_true_eq_false, if_false, Bool.false_eq_true]
  · simp only [__fan_get_cur_state, h, acpi_evaluate_integer, fan_arg, hs, ne_eq,
      not_false_eq_true, if_true, if_false, Bool.false_eq_true]

/-- C1 (manual round trip): after `__fan_set_cur_state(f, v)` with `v` in
`0..=255`, whatever the firmware answered to the write, `__fan_get_cur_state(f)`
returns 0 with `*state = v` and hands back the very same driver state: its call
log is unchanged, so no firmware call (in particular no `RFAN` read) is issued. -/
theorem manual_round_trip (fw : Firmware) (d : Driver) (f : Fin 2) (v : Nat)
    (hv : v ≤ 255) :
    __fan_get_cur_state fw (__fan_set_cur_state fw d f v).2 f =
      (0, some v, (__fan_set_cur_state fw d f v).2) := by
  have h256 : v ≠ 256 := by omega
  rw [set_cur_state_manual fw d f v h256]
  rw [get_cur_state_manual _ _ _ (by simp [Arr2.get_set_same])]
  simp [Arr2.get_set_same, as_u64_as_int_small v (by omega)]

/-- Witness for C1: fan 1 pinned at 200 while the firmware rejects the write. -/
theorem manual_round_trip_witness :
    200 ≤ 255 ∧
    __fan_get_cur_state (fw_const 1 0) (__fan_set_cur_state (fw_const 1 0) (Driver.initial true) 1 200).2 1 =
      (0, some 200, (__fan_set_cur_state (fw_const 1 0) (Driver.initial true) 1 200).2) :=
  ⟨by decide, manual_round_trip (fw_const 1 0) (Driver.initial true) 1 200 (by decide)⟩

/-- After the sentinel request the addressed fan is recorded as automatic. -/
theorem set_cur_state_auto_mode (fw : Firmware) (d : Driver) (fan : Fin 2) :
    (__fan_set_cur_state fw d fan 256).2.fan_manual_mode.get fan = false := by
  rw [set_cur_state_auto]
  cases hg : d.has_gfx_fan <;> fin_cases fan <;> simp [Arr2.get, Arr2.set]

/-- C2 (automatic read-through): after `__fan_set_cur_state(f, 256)` the fan is
recorded as automatic and `__fan_get_cur_state(f)` evaluates `RFAN` with
argument `f`; if that evaluation yields status `ret` and raw value `r`, the
getter returns 0 with `*state = (r + 1) * 4` modulo 2^64 when `ret` is `AE_OK`,
and returns the nonzero status without storing a value otherwise. -/
theorem automatic_read_through (fw : Firmware) (d : Driver) (f : Fin 2) (ret r : Nat)
    (d2 : Driver)
    (h : acpi_evaluate_integer fw (__fan_set_cur_state fw d f 256).2 .RFAN [f.val] =
      (ret, r, d2)) :
    (__fan_set_cur_state fw d f 256).2.fan_manual_mode.get f = false ∧
    d2.calls = (__fan_set_cur_state fw d f 256).2.calls ++ [⟨.RFAN, [f.val]⟩] ∧
    (__fan_get_cur_state fw (__fan_set_cur_state fw d f 256).2 f).2.2 = d2 ∧
    (ret = AE_OK →
      __fan_get_cur_state fw (__fan_set_cur_state fw d f 256).2 f =
        (0, some ((r + 1) * 4 % 2 ^ 64), d2)) ∧
    (ret ≠ AE_OK →
      __fan_get_cur_state fw (__fan_set_cur_state fw d f 256).2 f = (as_int ret, none, d2) ∧
      as_int ret ≠ 0) := by
  have hm := set_cur_state_auto_mode fw d f
  generalize (__fan_set_cur_state fw d f 256).2 = d1 at h hm ⊢
  rw [get_cur_state_automatic fw d1 f hm]
  simp only [acpi_evaluate_integer, Prod.mk.injEq] at h
  obtain ⟨h1, h2, h3⟩ := h
  subst h3
  refine ⟨hm, rfl, ?_, ?_, ?_⟩
  · split <;> rfl
  · intro hr
    rw [← h1] at hr
    rw [if_neg (not_not.mpr hr), h2]
  · intro hr
    have hr2 := hr
    rw [← h1] at hr2
    rw [if_pos hr2, h1]
    refine ⟨rfl, ?_⟩
    intro h0
    have hlt : ret < 2 ^ 32 := by
      rw [← h1]
      exact Nat.mod_lt _ (by norm_num)
    exact hr ((as_int_eq_zero_iff ret hlt).mp h0)

/-- Witness for C2: fan 0 was pinned at 77, is returned to automatic, and the
firmware then reports raw speed 10, so 44 is read, not 77. -/
theorem automatic_read_through_witness :
    __fan_get_cur_state (fw_const 0 10)
        (__fan_set_cur_state (fw_const 0 10)
          (__fan_set_cur_state (fw_const 0 10) (Driver.initial false) 0 77).2 0 256).2 0 =
      (0, some 44,
        { Driver.initial false with
          calls := [⟨.SFNV, [1, 77]⟩, ⟨.SFNV, [0, 0]⟩, ⟨.RFAN, [0]⟩] }) :=
  (automatic_read_through (fw_const 0 10)
    (__fan_set_cur_state (fw_const 0 10) (Driver.initial false) 0 77).2 0 0 10
    { Driver.initial false with
      calls := [⟨.SFNV, [1, 77]⟩, ⟨.SFNV, [0, 0]⟩, ⟨.RFAN, [0]⟩] }
    (by decide)).2.2.2.1 rfl

/-- C7 (manual set postcondition): for `v` in `0..=255`, `__fan_set_cur_state(f, v)`
appends exactly one call to the log, `SFNV` with arguments `f + 1` and `v`,
returns the 32-bit status of that call converted to `int` (zero exactly for
`AE_OK`), and records `fan_manual_mode[f] = true`, `fan_states[f] = v` for every
firmware answer. -/
theorem manual_set_postcondition (fw : Firmware) (d : Driver) (f : Fin 2) (v : Nat)
    (hv : v ≤ 255) :
    (__fan_set_cur_state fw d f v).2.calls = d.calls ++ [⟨.SFNV, [f.val + 1, v]⟩] ∧
    (__fan_set_cur_state fw d f v).1 =
      as_int ((acpi_evaluate_integer fw d .SFNV [f.val + 1, v]).1) ∧
    ((__fan_set_cur_state fw d f v).1 = 0 ↔
      (acpi_evaluate_integer fw d .SFNV [f.val + 1, v]).1 = AE_OK) ∧
    (__fan_set_cur_state fw d f v).2.fan_manual_mode.get f = true ∧
    (__fan_set_cur_state fw d f v).2.fan_states.get f = v := by
  have h256 : v ≠ 256 := by omega
  have hlt : (fw d.calls ⟨.SFNV, [f.val + 1, v]⟩).status % 2 ^ 32 < 2 ^ 32 :=
    Nat.mod_lt _ (by norm_num)
  rw [set_cur_state_manual fw d f v h256, as_u64_as_int_small v (by omega)]
  refine ⟨rfl, rfl, ?_, ?_, ?_⟩
  · exact as_int_eq_zero_iff _ hlt
  · simp [Arr2.get_set_same]
  · simp [Arr2.get_set_same, as_int_small v (by omega)]

/-- Witness for C7: fan 1 is pinned at 120 while the firmware answers with status 5. -/
theorem manual_set_postcondition_witness :
    __fan_set_cur_state (fw_const 5 0) (Driver.initial true) 1 120 =
      (5, { Driver.initial true with
            fan_states := ⟨-1, 120⟩
            fan_manual_mode := ⟨false, true⟩
            calls := [⟨.SFNV, [2, 120]⟩] }) ∧
    (__fan_set_cur_state (fw_const 5 0) (Driver.initial true) 1 120).2.fan_states.get 1 =
      ((120 : Nat) : Int) :=
  ⟨by decide,
    (manual_set_postcondition (fw_const 5 0) (Driver.initial true) 1 120 (by decide)).2.2.2.2⟩

/-- What `fan_set_max_speed` does. -/
theorem set_max_speed_eq (fw : Firmware) (d : Driver) (state : Nat) (reset : Bool) :
    fan_set_max_speed fw d state reset =
      if status_of fw d (max_speed_call state reset) ≠ AE_OK then
        (as_int (status_of fw d (max_speed_call state reset)),
          { d with calls := d.calls ++ [max_speed_call state reset] })
      else
        (0, { d with
              max_fan_speed_setting := if reset then 255 else as_int state
              calls := d.calls ++ [max_speed_call state reset] }) := by
  have h2 : as_u64 2 = 2 := by decide
  have h255 : as_int 255 = 255 := by decide
  have h0 : as_int 0 = 0 := by decide
  cases reset
  · by_cases hs : (fw d.calls ⟨.ST98, [state]⟩).status % 4294967296 = 0
    · simp [fan_set_max_speed, status_of, max_speed_call, acpi_evaluate_integer, AE_OK, hs, h0]
    · simp [fan_set_max_speed, status_of, max_speed_call, acpi_evaluate_integer, AE_OK, hs]
  · by_cases hs : (fw d.calls ⟨.QMOD, [2]⟩).status % 4294967296 = 0
    · simp [fan_set_max_speed, status_of, max_speed_call, acpi_evaluate_integer, AE_OK, hs, h0,
        h2, h255]
    · simp [fan_set_max_speed, status_of, max_speed_call, acpi_evaluate_integer, AE_OK, hs, h2]

theorem status_of_lt (fw : Firmware) (d : Driver) (call : AcpiCall) :
    status_of fw d call < 2 ^ 32 := by
  unfold status_of acpi_evaluate_integer
  exact Nat.mod_lt _ (by norm_num)

/-- C3, as stated, fails: with a succeeding firmware, `fan_set_max_speed(2^31, false)`
followed by `fan_get_max_speed` yields 2^64 - 2^31, because the ceiling is kept
in an `int`. -/
theorem set_max_speed_counterexample :
    (fan_set_max_speed (fw_const 0 0) (Driver.initial false) 2147483648 false).1 = 0 ∧
    (fan_get_max_speed
        (fan_set_max_speed (fw_const 0 0) (Driver.initial false) 2147483648 false).2).2.1 =
      some 18446744071562067968 ∧
    (fan_get_max_speed
        (fan_set_max_speed (fw_const 0 0) (Driver.initial false) 2147483648 false).2).2.1 ≠
      some 2147483648 := by
  decide

/-- C3 amended (ceiling postcondition): `fan_set_max_speed(value, reset)` issues
one call (`QMOD(2)` when `reset`, else `ST98(value)`).  If its status is `AE_OK`
the function returns 0 and a following `fan_get_max_speed` yields 255 when
`reset` is true (for every `value`) and `value` when `reset` is false and
`value < 2^31`.  Otherwise the function returns the nonzero status and
`fan_get_max_speed` yields the same ceiling as before.  `fan_get_max_speed`
hands back the driver state it was given, call log included. -/
theorem set_max_speed_ceiling (fw : Firmware) (d : Driver) (value : Nat) (reset : Bool)
    (hv : reset = false → value < 2 ^ 31) :
    (fan_set_max_speed fw d value reset).2.calls = d.calls ++ [max_speed_call value reset] ∧
    (status_of fw d (max_speed_call value reset) = AE_OK →
      (fan_set_max_speed fw d value reset).1 = 0 ∧
      fan_get_max_speed (fan_set_max_speed fw d value reset).2 =
        (0, some (if reset then 255 else value), (fan_set_max_speed fw d value reset).2)) ∧
    (status_of fw d (max_speed_call value reset) ≠ AE_OK →
      (fan_set_max_speed fw d value reset).1 =
        as_int (status_of fw d (max_speed_call value reset)) ∧
      (fan_set_max_speed fw d value reset).1 ≠ 0 ∧
      fan_get_max_speed (fan_set_max_speed fw d value reset).2 =
        (0, (fan_get_max_speed d).2.1, (fan_set_max_speed fw d value reset).2)) := by
  rw [set_max_speed_eq]
  by_cases hs : status_of fw d (max_speed_call value reset) = AE_OK
  · rw [if_neg (not_not.mpr hs)]
    refine ⟨rfl, fun _ => ⟨rfl, ?_⟩, fun h => absurd hs h⟩
    cases reset
    · have h := as_u64_as_int_small value (hv rfl)
      simp [fan_get_max_speed, h]
    · have h : as_u64 255 = 255 := by decide
      simp [fan_get_max_speed, h]
  · rw [if_pos hs]
    refine ⟨rfl, fun h => absurd h hs, fun _ => ⟨rfl, ?_, rfl⟩⟩
    intro h0
    exact hs ((as_int_eq_zero_iff _ (status_of_lt fw d _)).mp h0)

/-- Witness for C3 amended: the ceiling 200 is recorded on success. -/
theorem set_max_speed_ceiling_witness :
    fan_get_max_speed (fan_set_max_speed (fw_const 0 0) (Driver.initial false) 200 false).2 =
      (0, some 200, (fan_set_max_speed (fw_const 0 0) (Driver.initial false) 200 false).2) :=
  ((set_max_speed_ceiling (fw_const 0 0) (Driver.initial false) 200 false
    (fun _ => by decide)).2.1 (by decide)).2

/-- What `__fan_rpm` does. -/
theorem rpm_eq (fw : Firmware) (d : Driver) (fan : Fin 2) :
    __fan_rpm fw d fan =
      (if status_of fw d ⟨.TACH, [fan.val]⟩ ≠ AE_OK then 0
        else (fw d.calls ⟨.TACH, [fan.val]⟩).value % 2 ^ 64,
        { d with calls := d.calls ++ [⟨.TACH, [fan.val]⟩] }) := by
  by_cases hs : (fw d.calls ⟨.TACH, [fan.val]⟩).status % 4294967296 = 0
  · simp [__fan_rpm, status_of, acpi_evaluate_integer, fan_arg, AE_OK, hs]
  · simp [__fan_rpm, status_of, acpi_evaluate_integer, fan_arg, AE_OK, hs]

/-- The call log after `__fan_set_cur_state`, and its return value. -/
theorem set_cur_state_call (fw : Firmware) (d : Driver) (fan : Fin 2) (state : Nat) :
    (__fan_set_cur_state fw d fan state).2.calls = d.calls ++ [set_state_call fan state] ∧
    (__fan_set_cur_state fw d fan state).1 =
      as_int (status_of fw d (set_state_call fan state)) := by
  by_cases h : state = 256
  · subst h
    rw [set_cur_state_auto]
    simp [set_state_call, status_of, acpi_evaluate_integer]
  · rw [set_cur_state_manual fw d fan state h]
    simp [set_state_call, status_of, acpi_evaluate_integer, h]

/-- C4, as stated, fails: on a profile without a secondary fan and with a
succeeding firmware, the three operations on fan index 1 succeed and each
issues a firmware call. -/
theorem secondary_fan_counterexample :
    (Driver.initial false).has_gfx_fan = false ∧
    __fan_set_cur_state (fw_const 0 0) (Driver.initial false) 1 100 =
      (0, { Driver.initial false with
            fan_states := ⟨-1, 100⟩
            fan_manual_mode := ⟨false, true⟩
            calls := [⟨.SFNV, [2, 100]⟩] }) ∧
    __fan_get_cur_state (fw_const 0 10) (Driver.initial false) 1 =
      (0, some 44, { Driver.initial false with calls := [⟨.RFAN, [1]⟩] }) ∧
    __fan_rpm (fw_const 0 3000) (Driver.initial false) 1 =
      (3000, { Driver.initial false with calls := [⟨.TACH, [1]⟩] }) := by
  decide

/-- C4 amended: with `has_gfx_fan` false the controller functions serve fan
index 1 like fan index 0.  `__fan_set_cur_state(1, x)` issues one `SFNV` call
(fan argument 2 for `x ≠ 256`, the global auto call for 256) and returns its
status; `__fan_get_cur_state(1)` issues `RFAN(1)` unless fan 1 is recorded as
manual; `__fan_rpm(1)` issues `TACH(1)`.  The secondary fan is withheld at
registration only: no attribute in the group registered by
`asus_fan_hwmon_init` is bound to fan 1. -/
theorem secondary_fan_served (fw : Firmware) (d : Driver) (hg : d.has_gfx_fan = false) :
    (∀ x : Nat,
      (__fan_set_cur_state fw d 1 x).2.calls = d.calls ++ [set_state_call 1 x] ∧
      (__fan_set_cur_state fw d 1 x).1 = as_int (status_of fw d (set_state_call 1 x))) ∧
    (d.fan_manual_mode.get 1 = false →
      (__fan_get_cur_state fw d 1).2.2.calls = d.calls ++ [⟨.RFAN, [1]⟩]) ∧
    (__fan_rpm fw d 1).2.calls = d.calls ++ [⟨.TACH, [1]⟩] ∧
    (∀ a ∈ asus_fan_hwmon_init d, a.fan = 0) := by
  refine ⟨fun x => set_cur_state_call fw d 1 x, ?_, ?_, ?_⟩
  · intro hm
    rw [get_cur_state_automatic fw d 1 hm]
    split <;> rfl
  · rw [rpm_eq]
    rfl
  · intro a ha
    simp only [asus_fan_hwmon_init, hg, Bool.not_false, if_true, hwmon_attributes] at ha
    simp only [List.mem_cons, List.mem_singleton, List.not_mem_nil, or_false] at ha
    rcases ha with h | h | h | h <;> subst h <;> rfl

/-- Witness for C4 amended: the initial state of a profile without secondary fan. -/
theorem secondary_fan_served_witness :
    (__fan_rpm (fw_const 0 3000) (Driver.initial false) 1).2.calls = [] ++ [⟨.TACH, [1]⟩] :=
  (secondary_fan_served (fw_const 0 3000) (Driver.initial false) rfl).2.2.1

/-- C8, as stated, fails: without a secondary fan, `fan_set_auto` leaves the
entries of fan 1 as they were (here: manual at 100). -/
theorem set_auto_counterexample :
    (fan_set_auto (fw_const 0 0)
        (__fan_set_cur_state (fw_const 0 0) (Driver.initial false) 1 100).2).1 = 0 ∧
    (fan_set_auto (fw_const 0 0)
        (__fan_set_cur_state (fw_const 0 0) (Driver.initial false) 1 100).2).2.fan_manual_mode.get 1
      = true ∧
    (fan_set_auto (fw_const 0 0)
        (__fan_set_cur_state (fw_const 0 0) (Driver.initial false) 1 100).2).2.fan_states.get 1
      = 100 := by
  decide

/-- C8 amended: `fan_set_auto` always records fan 0 as automatic with cached
value -1; it does the same for fan 1 when `has_gfx_fan` is true and leaves the
two entries of fan 1 untouched when `has_gfx_fan` is false. -/
theorem set_auto_clears (fw : Firmware) (d : Driver) :
    (fan_set_auto fw d).2.fan_manual_mode.get 0 = false ∧
    (fan_set_auto fw d).2.fan_states.get 0 = -1 ∧
    (d.has_gfx_fan = true →
      (fan_set_auto fw d).2.fan_manual_mode.get 1 = false ∧
      (fan_set_auto fw d).2.fan_states.get 1 = -1) ∧
    (d.has_gfx_fan = false →
      (fan_set_auto fw d).2.fan_manual_mode.get 1 = d.fan_manual_mode.get 1 ∧
      (fan_set_auto fw d).2.fan_states.get 1 = d.fan_states.get 1) := by
  rw [set_auto_eq]
  cases hg : d.has_gfx_fan <;> simp [Arr2.get, Arr2.set]

/-- Witness for C8 amended: both fans pinned on a two-fan profile, then cleared. -/
theorem set_auto_clears_witness :
    (fan_set_auto (fw_const 0 0)
        (__fan_set_cur_state (fw_const 0 0)
          (__fan_set_cur_state (fw_const 0 0) (Driver.initial true) 0 50).2 1 100).2).2.fan_manual_mode.get 1
      = false ∧
    (fan_set_auto (fw_const 0 0)
        (__fan_set_cur_state (fw_const 0 0)
          (__fan_set_cur_state (fw_const 0 0) (Driver.initial true) 0 50).2 1 100).2).2.fan_states.get 1
      = -1 :=
  (set_auto_clears (fw_const 0 0)
    (__fan_set_cur_state (fw_const 0 0)
      (__fan_set_cur_state (fw_const 0 0) (Driver.initial true) 0 50).2 1 100).2).2.2.1 (by decide)

/-- C6, as stated, fails: in the initial state, a successful read with raw
firmware value 63 returns 256. -/
theorem get_cur_state_range_counterexample :
    __fan_get_cur_state (fw_const 0 63) (Driver.initial false) 0 =
      (0, some 256, { Driver.initial false with calls := [⟨.RFAN, [0]⟩] }) := by
  decide

/-- C6 amended: for a fan recorded as manual, `__fan_get_cur_state` returns the
cached value, which is in `0..=255` whenever `fan_states` is.  For a fan recorded
as automatic and a successful read of raw value `r`, it returns `(r + 1) * 4`
modulo 2^64; that result is at most 255 exactly when `(r + 1) % 2^62 ≤ 63`, in
particular for every `r ≤ 62`, and it is 256 for `r = 63`. -/
theorem get_cur_state_range (fw : Firmware) (d : Driver) (f : Fin 2) :
    (d.fan_manual_mode.get f = true → 0 ≤ d.fan_states.get f → d.fan_states.get f ≤ 255 →
      ∃ v : Nat, v ≤ 255 ∧ (v : Int) = d.fan_states.get f ∧
        __fan_get_cur_state fw d f = (0, some v, d)) ∧
    (d.fan_manual_mode.get f = false → status_of fw d ⟨.RFAN, [f.val]⟩ = AE_OK →
      ∃ v : Nat, v = (raw_reading fw d f + 1) * 4 % 2 ^ 64 ∧
        (__fan_get_cur_state fw d f).1 = 0 ∧
        (__fan_get_cur_state fw d f).2.1 = some v ∧
        (v ≤ 255 ↔ (raw_reading fw d f + 1) % 2 ^ 62 ≤ 63) ∧
        (raw_reading fw d f ≤ 62 → v ≤ 255) ∧
        (raw_reading fw d f = 63 → v = 256)) := by
  constructor
  · intro hm h0 h255
    refine ⟨(d.fan_states.get f).toNat, by omega, by omega, ?_⟩
    rw [get_cur_state_manual fw d f hm]
    have h : as_u64 (d.fan_states.get f) = (d.fan_states.get f).toNat := by
      unfold as_u64
      rw [Int.emod_eq_of_lt h0 (by omega)]
    rw [h]
  · intro hm hs
    have hs2 : (fw d.calls ⟨.RFAN, [f.val]⟩).status % 2 ^ 32 = AE_OK := hs
    refine ⟨(raw_reading fw d f + 1) * 4 % 2 ^ 64, rfl, ?_, ?_, ?_, ?_, ?_⟩
    · rw [get_cur_state_automatic fw d f hm]
      rw [if_neg (not_not.mpr hs2)]
    · rw [get_cur_state_automatic fw d f hm]
      rw [if_neg (not_not.mpr hs2)]
      rfl
    · omega
    · intro h
      omega
    · intro h
      omega

/-- Witness for C6 amended: raw reading 62 in automatic mode gives 252. -/
theorem get_cur_state_range_witness :
    ∃ v : Nat, v = (raw_reading (fw_const 0 62) (Driver.initial false) 0 + 1) * 4 % 2 ^ 64 ∧
      (__fan_get_cur_state (fw_const 0 62) (Driver.initial false) 0).1 = 0 ∧
      (__fan_get_cur_state (fw_const 0 62) (Driver.initial false) 0).2.1 = some v ∧
      (v ≤ 255 ↔ (raw_reading (fw_const 0 62) (Driver.initial false) 0 + 1) % 2 ^ 62 ≤ 63) ∧
      (raw_reading (fw_const 0 62) (Driver.initial false) 0 ≤ 62 → v ≤ 255) ∧
      (raw_reading (fw_const 0 62) (Driver.initial false) 0 = 63 → v = 256) :=
  (get_cur_state_range (fw_const 0 62) (Driver.initial false) 0).2 (by decide) (by decide)

/-! ## Invariants over request sequences -/

/-- The driver state after `__fan_get_cur_state`. -/
theorem get_cur_state_driver (fw : Firmware) (d : Driver) (fan : Fin 2) :
    (__fan_get_cur_state fw d fan).2.2 =
      if d.fan_manual_mode.get fan = true then d
      else { d with calls := d.calls ++ [⟨.RFAN, [fan.val]⟩] } := by
  cases hm : d.fan_manual_mode.get fan
  · rw [get_cur_state_automatic fw d fan hm]
    split <;> simp
  · rw [get_cur_state_manual fw d fan hm]
    simp

/-- The driver state after `fan_set_max_speed`. -/
theorem set_max_speed_driver (fw : Firmware) (d : Driver) (state : Nat) (reset : Bool) :
    ∃ m : Int, (fan_set_max_speed fw d state reset).2 =
      { d with max_fan_speed_setting := m, calls := d.calls ++ [max_speed_call state reset] } := by
  rw [set_max_speed_eq]
  split
  · exact ⟨d.max_fan_speed_setting, rfl⟩
  · exact ⟨_, rfl⟩

theorem last_speed_write_append (cs : List AcpiCall) (c : AcpiCall) (fan : Fin 2) :
    last_speed_write (cs ++ [c]) fan =
      match c with
      | ⟨.SFNV, [i, speed]⟩ => if i = fan.val + 1 then some speed else last_speed_write cs fan
      | _ => last_speed_write cs fan := by
  simp [last_speed_write, List.foldl_append]

theorem last_speed_write_auto (cs : List AcpiCall) (fan : Fin 2) :
    last_speed_write (cs ++ [⟨.SFNV, [0, 0]⟩]) fan = last_speed_write cs fan := by
  rw [last_speed_write_append]
  simp

theorem last_speed_write_speed (cs : List AcpiCall) (g fan : Fin 2) (speed : Nat) :
    last_speed_write (cs ++ [⟨.SFNV, [g.val + 1, speed]⟩]) fan =
      if g = fan then some speed else last_speed_write cs fan := by
  rw [last_speed_write_append]
  fin_cases g <;> fin_cases fan <;> simp

theorem last_speed_write_max (cs : List AcpiCall) (state : Nat) (reset : Bool) (fan : Fin 2) :
    last_speed_write (cs ++ [max_speed_call state reset]) fan = last_speed_write cs fan := by
  rw [last_speed_write_append]
  cases reset <;> simp [max_speed_call]

theorem serve_all_cons (fw : Firmware) (d : Driver) (r : Request) (rs : List Request) :
    serve_all fw d (r :: rs) = serve_all fw (serve fw d r) rs := rfl

/-- A property kept by every admissible request holds after any sequence of them. -/
theorem serve_all_preserves (fw : Firmware) (P : Driver → Prop) (Q : Request → Prop)
    (hstep : ∀ d r, Q r → P d → P (serve fw d r)) :
    ∀ (reqs : List Request) (d : Driver), (∀ r ∈ reqs, Q r) → P d → P (serve_all fw d reqs) := by
  intro reqs
  induction reqs with
  | nil => intro d _ hd; exact hd
  | cons r rs ih =>
    intro d hq hd
    rw [serve_all_cons]
    exact ih _ (fun q hq2 => hq q (List.mem_cons_of_mem _ hq2))
      (hstep d r (hq r (List.mem_cons_self _ _)) hd)

/-- Serving a request in the speed domain keeps every fan in the speed domain. -/
theorem serve_speed_domain (fw : Firmware) (d : Driver) (r : Request) (hr : r.in_domain)
    (hd : ∀ f, speed_domain d f) : ∀ f, speed_domain (serve fw d r) f := by
  have h0 := hd 0
  have h1 := hd 1
  cases r with
  | set_cur_state fan state =>
    have hs : state ≤ 256 := hr
    by_cases h256 : state = 256
    · subst h256
      intro f
      simp only [serve, set_cur_state_auto]
      cases hg : d.has_gfx_fan <;> fin_cases fan <;> fin_cases f <;>
        simp_all [speed_domain, Arr2.get, Arr2.set]
    · intro f
      have hsmall : as_int state = state := as_int_small state (by omega)
      simp only [serve, set_cur_state_manual fw d fan state h256, hsmall]
      fin_cases fan <;> fin_cases f <;>
        simp_all [speed_domain, Arr2.get, Arr2.set] <;> omega
  | get_cur_state fan =>
    intro f
    simp only [serve, get_cur_state_driver]
    split
    · exact hd f
    · exact hd f
  | set_auto =>
    intro f
    simp only [serve, set_auto_eq]
    cases hg : d.has_gfx_fan <;> fin_cases f <;> simp_all [speed_domain, Arr2.get, Arr2.set]
  | set_max_speed state reset =>
    intro f
    obtain ⟨m, hm⟩ := set_max_speed_driver fw d state reset
    simp only [serve, hm]
    exact hd f
  | get_max_speed =>
    intro f
    exact hd f
  | rpm fan =>
    intro f
    simp only [serve, rpm_eq]
    exact hd f

/-- Serving any request keeps the cache consistent with the last speed write. -/
theorem serve_cache_consistent (fw : Firmware) (d : Driver) (r : Request)
    (hd : ∀ f, cache_consistent d f) : ∀ f, cache_consistent (serve fw d r) f := by
  cases r with
  | set_cur_state fan state =>
    by_cases h256 : state = 256
    · subst h256
      intro f
      have hf := hd f
      unfold cache_consistent at hf ⊢
      simp only [serve, set_cur_state_auto, last_speed_write_auto]
      cases hg : d.has_gfx_fan <;> fin_cases fan <;> fin_cases f <;>
        simp_all [Arr2.get, Arr2.set]
    · intro f
      have hf := hd f
      unfold cache_consistent at hf ⊢
      simp only [serve, set_cur_state_manual fw d fan state h256, last_speed_write_speed]
      by_cases hff : fan = f
      · subst hff
        simp [Arr2.get_set_same]
      · have hne : f ≠ fan := fun h => hff h.symm
        simp only [if_neg hff, Arr2.get_set_other _ _ _ _ hne]
        exact hf
  | get_cur_state fan =>
    intro f
    have hf := hd f
    unfold cache_consistent at hf ⊢
    simp only [serve, get_cur_state_driver]
    split
    · exact hf
    · rw [last_speed_write_append]
      exact hf
  | set_auto =>
    intro f
    have hf := hd f
    unfold cache_consistent at hf ⊢
    simp only [serve, set_auto_eq, last_speed_write_auto]
    cases hg : d.has_gfx_fan <;> fin_cases f <;> simp_all [Arr2.get, Arr2.set]
  | set_max_speed state reset =>
    intro f
    have hf := hd f
    obtain ⟨m, hm⟩ := set_max_speed_driver fw d state reset
    unfold cache_consistent at hf ⊢
    simp only [serve, hm, last_speed_write_max]
    exact hf
  | get_max_speed =>
    intro f
    exact hd f
  | rpm fan =>
    intro f
    have hf := hd f
    unfold cache_consistent at hf ⊢
    simp only [serve, rpm_eq]
    rw [last_speed_write_append]
    exact hf

theorem as_int_range (n : Nat) : -2 ^ 31 ≤ as_int n ∧ as_int n < 2 ^ 31 := by
  unfold as_int
  split <;> omega

/-- Serving any request keeps the cached states within the range of `int`. -/
theorem serve_state_is_int (fw : Firmware) (d : Driver) (r : Request)
    (hd : ∀ f, state_is_int d f) : ∀ f, state_is_int (serve fw d r) f := by
  have h0 := hd 0
  have h1 := hd 1
  cases r with
  | set_cur_state fan state =>
    by_cases h256 : state = 256
    · subst h256
      intro f
      simp only [serve, set_cur_state_auto]
      cases hg : d.has_gfx_fan <;> fin_cases fan <;> fin_cases f <;>
        simp_all [state_is_int, Arr2.get, Arr2.set]
    · intro f
      have hr := as_int_range state
      simp only [serve, set_cur_state_manual fw d fan state h256]
      fin_cases fan <;> fin_cases f <;>
        simp_all [state_is_int, Arr2.get, Arr2.set]
  | get_cur_state fan =>
    intro f
    simp only [serve, get_cur_state_driver]
    split
    · exact hd f
    · exact hd f
  | set_auto =>
    intro f
    simp only [serve, set_auto_eq]
    cases hg : d.has_gfx_fan <;> fin_cases f <;> simp_all [state_is_int, Arr2.get, Arr2.set]
  | set_max_speed state reset =>
    intro f
    obtain ⟨m, hm⟩ := set_max_speed_driver fw d state reset
    simp only [serve, hm]
    exact hd f
  | get_max_speed =>
    intro f
    exact hd f
  | rpm fan =>
    intro f
    simp only [serve, rpm_eq]
    exact hd f

/-- C9, as stated, fails: the request 300 for fan 0 (directly, as a served
request, or through the sysfs handler `fan_set_cur_state`) pins the fan at 300
and sends 300 to the firmware. -/
theorem speed_domain_counterexample :
    __fan_set_cur_state (fw_const 0 0) (Driver.initial false) 0 300 =
      (0, { Driver.initial false with
            fan_states := ⟨300, -1⟩
            fan_manual_mode := ⟨true, false⟩
            calls := [⟨.SFNV, [1, 300]⟩] }) ∧
    fan_set_cur_state (fw_const 0 0) (Driver.initial false) 300 =
      (__fan_set_cur_state (fw_const 0 0) (Driver.initial false) 0 300).2 ∧
    ¬ speed_domain
        (serve_all (fw_const 0 0) (Driver.initial false) [Request.set_cur_state 0 300]) 0 := by
  refine ⟨by decide, by decide, ?_⟩
  intro h
  have h2 := (h (by decide)).2
  revert h2
  decide

/-- C9 amended: in every state reached from the initial state by requests whose
set-speed values are all 256 or in `0..=255`, each fan is recorded as automatic
or as manual at a value in `0..=255`.  The code does not validate the value:
every set-speed request other than 256 records the fan as manual at the value
(converted to `int`) and sends it to the firmware. -/
theorem speed_domain_invariant (fw : Firmware) (gfx : Bool) (reqs : List Request)
    (hreqs : ∀ r ∈ reqs, r.in_domain) :
    (∀ f, speed_domain (serve_all fw (Driver.initial gfx) reqs) f) ∧
    (∀ (d : Driver) (f : Fin 2) (state : Nat), state ≠ 256 →
      (__fan_set_cur_state fw d f state).2.fan_manual_mode.get f = true ∧
      (__fan_set_cur_state fw d f state).2.fan_states.get f = as_int state ∧
      (__fan_set_cur_state fw d f state).2.calls =
        d.calls ++ [⟨.SFNV, [f.val + 1, as_u64 (as_int state)]⟩]) := by
  constructor
  · apply serve_all_preserves fw (fun d => ∀ f, speed_domain d f) Request.in_domain
      (fun d r hr hd => serve_speed_domain fw d r hr hd) reqs _ hreqs
    intro f
    fin_cases f <;> simp [speed_domain, Driver.initial, Arr2.get]
  · intro d f state h
    rw [set_cur_state_manual fw d f state h]
    simp [Arr2.get_set_same]

/-- Witness for C9 amended: a sequence of in-domain requests on a two-fan profile. -/
theorem speed_domain_invariant_witness :
    speed_domain
      (serve_all (fw_const 0 7) (Driver.initial true)
        [Request.set_cur_state 0 100, Request.get_cur_state 0, Request.set_cur_state 1 255,
          Request.set_cur_state 0 256, Request.set_max_speed 200 false, Request.rpm 1]) 0 ∧
    speed_domain
      (serve_all (fw_const 0 7) (Driver.initial true)
        [Request.set_cur_state 0 100, Request.get_cur_state 0, Request.set_cur_state 1 255,
          Request.set_cur_state 0 256, Request.set_max_speed 200 false, Request.rpm 1]) 1 :=
  ⟨(speed_domain_invariant (fw_const 0 7) true
      [Request.set_cur_state 0 100, Request.get_cur_state 0, Request.set_cur_state 1 255,
        Request.set_cur_state 0 256, Request.set_max_speed 200 false, Request.rpm 1]
      (by simp [Request.in_domain])).1 0,
    (speed_domain_invariant (fw_const 0 7) true
      [Request.set_cur_state 0 100, Request.get_cur_state 0, Request.set_cur_state 1 255,
        Request.set_cur_state 0 256, Request.set_max_speed 200 false, Request.rpm 1]
      (by simp [Request.in_domain])).1 1⟩

/-- C10 (cache/hardware consistency): in every state reached from the initial
state by any sequence of requests under any firmware, a fan recorded as manual
with cached value `v` has a most recent `SFNV` write with fan argument `f + 1`,
and that write carried `v` (as the 64-bit ACPI integer `v` converts to, which
is `v` itself when `v ≥ 0`); it is also the value `__fan_get_cur_state` reports. -/
theorem cache_matches_last_write (fw : Firmware) (gfx : Bool) (reqs : List Request)
    (f : Fin 2)
    (hm : (serve_all fw (Driver.initial gfx) reqs).fan_manual_mode.get f = true) :
    last_speed_write (serve_all fw (Driver.initial gfx) reqs).calls f =
      some (as_u64 ((serve_all fw (Driver.initial gfx) reqs).fan_states.get f)) ∧
    (0 ≤ (serve_all fw (Driver.initial gfx) reqs).fan_states.get f →
      ∃ v : Nat, last_speed_write (serve_all fw (Driver.initial gfx) reqs).calls f = some v ∧
        (v : Int) = (serve_all fw (Driver.initial gfx) reqs).fan_states.get f) ∧
    (__fan_get_cur_state fw (serve_all fw (Driver.initial gfx) reqs) f).2.1 =
      last_speed_write (serve_all fw (Driver.initial gfx) reqs).calls f := by
  have hinv : ∀ g, cache_consistent (serve_all fw (Driver.initial gfx) reqs) g := by
    apply serve_all_preserves fw (fun d => ∀ g, cache_consistent d g) (fun _ => True)
      (fun d r _ hd => serve_cache_consistent fw d r hd) reqs _ (fun _ _ => trivial)
    intro g
    fin_cases g <;> simp [cache_consistent, Driver.initial, Arr2.get]
  have hint : ∀ g, state_is_int (serve_all fw (Driver.initial gfx) reqs) g := by
    apply serve_all_preserves fw (fun d => ∀ g, state_is_int d g) (fun _ => True)
      (fun d r _ hd => serve_state_is_int fw d r hd) reqs _ (fun _ _ => trivial)
    intro g
    fin_cases g <;> simp [state_is_int, Driver.initial, Arr2.get]
  have hl := hinv f hm
  have hi := (hint f).2
  generalize serve_all fw (Driver.initial gfx) reqs = d at hm hl hi ⊢
  refine ⟨hl, ?_, ?_⟩
  · intro h0
    refine ⟨as_u64 (d.fan_states.get f), hl, ?_⟩
    unfold as_u64
    rw [Int.emod_eq_of_lt h0 (by omega)]
    omega
  · rw [get_cur_state_manual fw d f hm, hl]

/-- Witness for C10: fan 0 pinned at 100, global auto, fan 1 pinned at 30, fan 0
pinned again at 70 with a failing firmware, then a read. -/
theorem cache_matches_last_write_witness :
    last_speed_write
        (serve_all (fw_const 3 0) (Driver.initial true)
          [Request.set_cur_state 0 100, Request.set_auto, Request.set_cur_state 1 30,
            Request.set_cur_state 0 70, Request.get_cur_state 0]).calls 0 =
      some (as_u64
        ((serve_all (fw_const 3 0) (Driver.initial true)
          [Request.set_cur_state 0 100, Request.set_auto, Request.set_cur_state 1 30,
            Request.set_cur_state 0 70, Request.get_cur_state 0]).fan_states.get 0)) :=
  (cache_matches_last_write (fw_const 3 0) true
    [Request.set_cur_state 0 100, Request.set_auto, Request.set_cur_state 1 30,
      Request.set_cur_state 0 70, Request.get_cur_state 0] 0 (by decide)).1

theorem as_u32_lt (i : Int) : as_u32 i < 2 ^ 32 := by
  unfold as_u32
  omega

theorem as_u32_as_int (n : Nat) (h : n < 2 ^ 32) : as_u32 (as_int n) = n := by
  unfold as_u32 as_int
  have h1 : n % 2 ^ 32 = n := Nat.mod_eq_of_lt h
  rw [h1]
  split <;> omega

/-- The driver state after a successful `fan_init`. -/
theorem fan_init_ok (fw : Firmware) (d : Driver) (sys_vendor product_name : String)
    (bundle : Option Int) (h : (fan_init fw d sys_vendor product_name bundle).1 = 0) :
    ∃ d1 : Driver,
      status_of fw d1 (max_speed_call 255 false) = AE_OK ∧
      (fan_init fw d sys_vendor product_name bundle).2 =
        (fan_set_auto fw (fan_set_max_speed fw d1 255 false).2).2 := by
  have h255 : as_u64 max_fan_speed_default = 255 := by decide
  have hnz : ∀ i : Int, as_u32 i ≠ AE_OK → as_int (as_u32 i) ≠ 0 := by
    intro i hi h0
    exact hi ((as_int_eq_zero_iff _ (as_u32_lt i)).mp h0)
  unfold fan_init at h ⊢
  simp only [] at h ⊢
  split at h
  · simp [ENODEV] at h
  · rename_i gfx hp
    rw [h255] at h ⊢
    generalize asus_fan_register_driver _ bundle = reg at h ⊢
    by_cases c1 : as_u32 reg.1 ≠ AE_OK
    · rw [if_pos c1] at h
      exact absurd h (hnz _ c1)
    · rw [if_neg c1] at h ⊢
      by_cases c2 : as_u32 (fan_set_max_speed fw reg.2 255 false).1 ≠ AE_OK
      · rw [if_pos c2] at h
        exact absurd h (hnz _ c2)
      · rw [if_neg c2] at h ⊢
        refine ⟨reg.2, ?_, ?_⟩
        · by_contra hs
          apply c2
          rw [set_max_speed_eq, if_pos hs]
          simp only []
          rw [as_u32_as_int _ (status_of_lt fw _ _)]
          exact hs
        · split <;> rfl

/-- Requests other than `fan_set_max_speed` leave the recorded ceiling alone. -/
theorem serve_keeps_ceiling (fw : Firmware) (d : Driver) (r : Request) (h : r.keeps_ceiling) :
    (serve fw d r).max_fan_speed_setting = d.max_fan_speed_setting := by
  cases r with
  | set_cur_state fan state =>
    by_cases h256 : state = 256
    · subst h256
      simp only [serve, set_cur_state_auto]
    · simp only [serve, set_cur_state_manual fw d fan state h256]
  | get_cur_state fan =>
    simp only [serve, get_cur_state_driver]
    split <;> rfl
  | set_auto => simp only [serve, set_auto_eq]
  | set_max_speed state reset => exact absurd h (by simp [Request.keeps_ceiling])
  | get_max_speed => rfl
  | rpm fan => simp only [serve, rpm_eq]

/-- C5, as stated, fails for shutdown: after the ceiling was set to 200,
`fan_exit` leaves the recorded ceiling at 200. -/
theorem shutdown_ceiling_counterexample :
    (fan_set_max_speed (fw_const 0 0) (Driver.initial true) 200 false).1 = 0 ∧
    (fan_exit (fw_const 0 0)
        (fan_set_max_speed (fw_const 0 0) (Driver.initial true) 200 false).2).max_fan_speed_setting
      = 200 ∧
    (fan_get_max_speed
        (fan_exit (fw_const 0 0)
          (fan_set_max_speed (fw_const 0 0) (Driver.initial true) 200 false).2)).2.1 = some 200 := by
  decide

/-- C5 amended: after a successful `fan_init` every present fan (fan 0, and
fan 1 when `has_gfx_fan` is true) is recorded as automatic and the recorded
ceiling is 255, whatever the store held before.  After `fan_exit` every present
fan is recorded as automatic; `fan_exit` only issues the auto-mode call and
leaves the recorded ceiling as it was; it is therefore 255 at shutdown after a
successful `fan_init` followed by any requests other than `fan_set_max_speed`. -/
theorem startup_shutdown_reset (fw : Firmware) (d : Driver) (sys_vendor product_name : String)
    (bundle : Option Int) :
    ((fan_init fw d sys_vendor product_name bundle).1 = 0 →
      (fan_init fw d sys_vendor product_name bundle).2.fan_manual_mode.get 0 = false ∧
      ((fan_init fw d sys_vendor product_name bundle).2.has_gfx_fan = true →
        (fan_init fw d sys_vendor product_name bundle).2.fan_manual_mode.get 1 = false) ∧
      (fan_init fw d sys_vendor product_name bundle).2.max_fan_speed_setting = 255) ∧
    ((fan_exit fw d).fan_manual_mode.get 0 = false ∧
      (d.has_gfx_fan = true → (fan_exit fw d).fan_manual_mode.get 1 = false) ∧
      (fan_exit fw d).has_gfx_fan = d.has_gfx_fan ∧
      (fan_exit fw d).max_fan_speed_setting = d.max_fan_speed_setting ∧
      (fan_exit fw d).calls = d.calls ++ [⟨.SFNV, [0, 0]⟩]) ∧
    (∀ reqs : List Request, (∀ r ∈ reqs, r.keeps_ceiling) →
      (fan_init fw d sys_vendor product_name bundle).1 = 0 →
      (fan_exit fw
        (serve_all fw (fan_init fw d sys_vendor product_name bundle).2 reqs)).max_fan_speed_setting
        = 255) := by
  have hinit : (fan_init fw d sys_vendor product_name bundle).1 = 0 →
      (fan_init fw d sys_vendor product_name bundle).2.max_fan_speed_setting = 255 := by
    intro h
    obtain ⟨d1, hs, heq⟩ := fan_init_ok fw d sys_vendor product_name bundle h
    have h255 : as_int 255 = 255 := by decide
    rw [heq, set_auto_eq, set_max_speed_eq, if_neg (not_not.mpr hs)]
    simp [h255]
  have hexit : ∀ e : Driver, (fan_exit fw e).max_fan_speed_setting = e.max_fan_speed_setting := by
    intro e
    simp only [fan_exit, asus_fan_unregister_driver, set_auto_eq]
  refine ⟨?_, ?_, ?_⟩
  rotate_left 2
  · intro reqs hreqs h
    rw [hexit]
    exact serve_all_preserves fw (fun e => e.max_fan_speed_setting = 255) Request.keeps_ceiling
      (fun e r hr he => (serve_keeps_ceiling fw e r hr).trans he) reqs _ hreqs (hinit h)
  · intro h
    obtain ⟨d1, hs, heq⟩ := fan_init_ok fw d sys_vendor product_name bundle h
    have h255 : as_int 255 = 255 := by decide
    rw [heq, set_auto_eq, set_max_speed_eq, if_neg (not_not.mpr hs)]
    cases hg : d1.has_gfx_fan <;> simp [Arr2.get, Arr2.set, hg, h255]
  · simp only [fan_exit, asus_fan_unregister_driver, set_auto_eq]
    cases hg : d.has_gfx_fan <;> simp [Arr2.get, Arr2.set]

/-- Witness for C5 amended: module load on an N551JK with fan 0 pinned and the
ceiling at 200 beforehand. -/
theorem startup_shutdown_reset_witness :
    (fan_init (fw_const 0 0)
        { Driver.initial true with
          fan_states := ⟨100, -1⟩, fan_manual_mode := ⟨true, false⟩, max_fan_speed_setting := 200 }
        "ASUSTeK COMPUTER INC." "N551JK" none).2.max_fan_speed_setting = 255 :=
  ((startup_shutdown_reset (fw_const 0 0)
    { Driver.initial true with
      fan_states := ⟨100, -1⟩, fan_manual_mode := ⟨true, false⟩, max_fan_speed_setting := 200 }
    "ASUSTeK COMPUTER INC." "N551JK" none).1 (by decide)).2.2

end AsusFan
